import Mathlib

/-!
Verification of the stock-analyzer repository against its natural-language
specification.  The analysis core (recommendation scorer, price-target
calculator, support/resistance detector, screening orchestrator) is served by
a backend whose source is not part of this repository snapshot; those parts
are modelled from the specification text, as marked on each definition.  The
frontend TypeScript components (chart filtering, SMA overlays, Demark signal
points, score-bar clamping) are embedded directly from their source files.

Numbers are modelled as rationals (ℚ): the JavaScript/Python sources use
IEEE doubles, but every claim under study is about exact algebraic structure,
which the rational model captures; floating-point rounding is out of scope.
-/

namespace StockAnalyzer

/-! ## Recommendation scorer (spec §4.5) -/

/-- The five recommendation labels of the data model (spec §3, `Recommendation`). -/
inductive RecLabel where
  | strongBuy
  | buy
  | hold
  | sell
  | strongSell
deriving DecidableEq, Repr

/-- Modelled from the spec: the backend recommendation scorer is not in this
repository snapshot.  Spec §4.5: "Combined score = technicalScore × 0.7 +
sentimentScore × 0.3, where sentimentScore is taken directly from the external
SentimentResult." -/
def combinedScore (technical_score sentiment_score : ℚ) : ℚ :=
  technical_score * (7/10) + sentiment_score * (3/10)

/-- Modelled from the spec: the backend recommendation scorer is not in this
repository snapshot.  Spec §4.5 thresholds on the combined score, read as the
ordered step function the spec's "pure step function" phrasing requires:
Strong Buy >30; Buy >10; Hold in [−10,10]; Sell < −10; Strong Sell < −30
(the Strong Sell case taking the region below −30, so Sell covers [−30,−10)).
These thresholds are also displayed verbatim by the frontend
`RecommendationCard.scoreExplanation`. -/
def recommendationLabel (s : ℚ) : RecLabel :=
  if 30 < s then .strongBuy
  else if 10 < s then .buy
  else if -10 ≤ s then .hold
  else if -30 ≤ s then .sell
  else .strongSell

/-- The `Recommendation` record of the frontend type declarations
(`types.ts`, interface `Recommendation`), with the label as the enum above. -/
structure Recommendation where
  recommendation : RecLabel
  confidence : ℚ
  technical_score : ℚ
  sentiment_score : ℚ
  combined_score : ℚ
deriving DecidableEq, Repr

/-- Modelled from the spec: the backend recommendation scorer is not in this
repository snapshot.  Builds the Recommendation from the technical score and
the external sentiment score (spec §4.5).  The spec leaves the concrete
confidence mapping open ("a monotonically increasing function of
|combinedScore| clipped to [0,100]"); we fix the linear clip min(2·|c|,100),
which no claim under study depends on. -/
def mkRecommendation (technical_score sentiment_score : ℚ) : Recommendation :=
  let c := combinedScore technical_score sentiment_score
  { recommendation := recommendationLabel c
    confidence := min (2 * |c|) 100
    technical_score := technical_score
    sentiment_score := sentiment_score
    combined_score := c }

/-! ## Price target calculator (spec §4.4) -/

/-- Error taxonomy entry for the price-target calculator (spec §7). -/
inductive PriceTargetError where
  | invalidRange
deriving DecidableEq, Repr

/-- The `PriceTargets` record of the frontend type declarations
(`types.ts`, interface `PriceTargets`). -/
structure PriceTargets where
  current_price : ℚ
  stop_loss : ℚ
  target_1 : ℚ
  target_2 : ℚ
  risk_reward : ℚ
deriving DecidableEq, Repr

/-- Modelled from the spec: the backend price-target calculator is not in this
repository snapshot.  Spec §4.4: stopLoss = lower Bollinger Band; target1 =
upper Bollinger Band; target2 = target1 × 1.05; riskRewardRatio =
(target1 − currentPrice) / (currentPrice − stopLoss), failing with an
`InvalidRange` condition if currentPrice ≤ stopLoss. -/
def computePriceTargets (currentPrice bbUpper bbLower : ℚ) :
    Except PriceTargetError PriceTargets :=
  if currentPrice ≤ bbLower then
    .error .invalidRange
  else
    .ok { current_price := currentPrice
          stop_loss := bbLower
          target_1 := bbUpper
          target_2 := bbUpper * (105/100)
          risk_reward := (bbUpper - currentPrice) / (currentPrice - bbLower) }

/-! ## Support/resistance detector (spec §4.3) -/

/-- Level classification (`types.ts`, interface `SupportResistanceLevel`). -/
inductive LevelType where
  | support
  | resistance
deriving DecidableEq, Repr

/-- The `SupportResistanceLevel` record of the frontend type declarations. -/
structure SupportResistanceLevel where
  price : ℚ
  type : LevelType
  strength : ℚ
deriving DecidableEq, Repr

/-- Modelled from the spec: the backend support/resistance detector is not in
this repository snapshot.  Spec §4.3: Bollinger upper → Resistance strength 70,
Bollinger lower → Support strength 70; each SMA value → Support if below the
current price, Resistance if above (ties resolved to Resistance), strength 60.
The fixed strengths 70/60 are also displayed by the frontend
`PriceTargetsCard` explanation text. -/
def supportResistanceLevels (currentPrice bbUpper bbLower : ℚ)
    (smas : List ℚ) : List SupportResistanceLevel :=
  { price := bbUpper, type := .resistance, strength := 70 } ::
  { price := bbLower, type := .support, strength := 70 } ::
  smas.map (fun s =>
    { price := s
      type := if s < currentPrice then LevelType.support else LevelType.resistance
      strength := 60 })

/-! ## Screening orchestrator (spec §4.6) -/

/-- The `TopStock` record of the frontend type declarations (`types.ts`). -/
structure TopStock where
  symbol : String
  name : String
  sector : String
  currentPrice : ℚ
  marketCap : ℚ
  peRatio : ℚ
  recommendation : RecLabel
  combinedScore : ℚ
  technicalScore : ℚ
  sentimentScore : ℚ
  confidence : ℚ
  pricePosition52w : ℚ
  volumeRatio : ℚ
  momentum20d : ℚ
  attractivenessScore : ℚ
  description : String
deriving DecidableEq, Repr

/-- The `ScreeningResponse` record of the frontend type declarations. -/
structure ScreeningResponse where
  topStocks : List TopStock
  totalAnalyzed : Nat
  failedSymbols : List String
deriving DecidableEq, Repr

/-- Ranking order of the screening orchestrator: by `attractivenessScore`
descending (spec §4.6). -/
def byScoreDesc (a b : TopStock) : Prop :=
  b.attractivenessScore ≤ a.attractivenessScore

instance : DecidableRel byScoreDesc :=
  fun _ _ => inferInstanceAs (Decidable (_ ≤ _))

/-- Modelled from the spec: the backend screening orchestrator is not in this
repository snapshot.  Spec §4.6: for each symbol of the universe, fetch and
analyze (the per-symbol pipeline is abstracted as `fetchAnalyze`, returning
`none` on an upstream fetch failure); failed symbols are appended to
`failedSymbols` rather than aborting the batch; successes are ranked by
`attractivenessScore` descending and the top N returned together with the
total-analyzed count. -/
def screenUniverse (fetchAnalyze : String → Option TopStock)
    (symbols : List String) (topN : Nat) : ScreeningResponse :=
  let successes := symbols.filterMap fetchAnalyze
  let failed := symbols.filter (fun sym => (fetchAnalyze sym).isNone)
  { topStocks := (successes.insertionSort byScoreDesc).take topN
    totalAnalyzed := successes.length
    failedSymbols := failed }

/-! ## Screener score bars (frontend `StockScreener.tsx`, lines 180–209) -/

/-- `StockScreener.tsx` line 185: the attractiveness score-bar width,
`Math.min(Math.max(stock.attractivenessScore, 0), 100)`. -/
def attractivenessBarWidth (stock : TopStock) : ℚ :=
  min (max stock.attractivenessScore 0) 100

/-- `StockScreener.tsx` line 195: the technical score-bar width,
`Math.min(Math.max(stock.technicalScore + 50, 0), 100)`. -/
def technicalBarWidth (stock : TopStock) : ℚ :=
  min (max (stock.technicalScore + 50) 0) 100

/-- `StockScreener.tsx` line 205: the sentiment score-bar width,
`Math.min(Math.max(stock.sentimentScore + 50, 0), 100)`. -/
def sentimentBarWidth (stock : TopStock) : ℚ :=
  min (max (stock.sentimentScore + 50) 0) 100

/-- The clamp the three score bars share: min(max(x, 0), 100). -/
def scoreBarClamp (x : ℚ) : ℚ :=
  min (max x 0) 100

end StockAnalyzer

namespace StockAnalyzer

/-- Auxiliary: the successes and the fetch failures of a list partition its
length. -/
theorem length_filterMap_add_length_filter_isNone {α β : Type}
    (f : α → Option β) (l : List α) :
    (l.filterMap f).length + (l.filter (fun a => (f a).isNone)).length
      = l.length := by
  induction l with
  | nil => rfl
  | cons a t ih =>
    cases hfa : f a <;>
      simp [List.filterMap_cons, List.filter_cons, hfa] <;> omega

/-- Claim C1: for every analysis result, the recommendation's combined score
equals 0.7 times the technical score plus 0.3 times the sentiment score
exactly, for arbitrary technical and sentiment inputs. -/
theorem claim_C1_combined_score (t s : ℚ) :
    (mkRecommendation t s).combined_score = 0.7 * t + 0.3 * s := by
  simp only [mkRecommendation, combinedScore]
  ring_nf

/-- Claim C2: the recommendation label is a pure step function of the combined
score, characterised threshold by threshold: Strong Buy exactly above 30, Buy
exactly on (10, 30], Hold exactly on [−10, 10], Sell exactly on [−30, −10),
and Strong Sell exactly below −30. -/
theorem claim_C2_label_step_function (s : ℚ) :
    ((recommendationLabel s = .strongBuy) ↔ 30 < s) ∧
    ((recommendationLabel s = .buy) ↔ 10 < s ∧ s ≤ 30) ∧
    ((recommendationLabel s = .hold) ↔ -10 ≤ s ∧ s ≤ 10) ∧
    ((recommendationLabel s = .sell) ↔ -30 ≤ s ∧ s < -10) ∧
    ((recommendationLabel s = .strongSell) ↔ s < -30) := by
  unfold recommendationLabel
  split_ifs with h1 h2 h3 h4 <;>
    refine ⟨?_, ?_, ?_, ?_, ?_⟩ <;> simp <;>
    first
      | linarith
      | (constructor <;> linarith)
      | (intro h; linarith)

/-- Claim C3: computing PriceTargets fails with InvalidRange exactly when
currentPrice ≤ stopLoss (the lower Bollinger band); otherwise it succeeds and
the risk/reward ratio equals (target1 − currentPrice)/(currentPrice − stopLoss)
with target1 the upper band and stopLoss the lower band. -/
theorem claim_C3_price_targets (p u l : ℚ) :
    ((computePriceTargets p u l = .error .invalidRange) ↔ p ≤ l) ∧
    (∀ pt, computePriceTargets p u l = .ok pt →
      pt.risk_reward = (u - p) / (p - l) ∧
      pt.target_1 = u ∧ pt.stop_loss = l ∧ pt.current_price = p) := by
  unfold computePriceTargets
  split_ifs with h
  · exact ⟨by simp [h], fun pt hpt => by simp at hpt⟩
  · refine ⟨by simp [h], fun pt hpt => ?_⟩
    simp only [Except.ok.injEq] at hpt
    subst hpt
    exact ⟨rfl, rfl, rfl, rfl⟩

/-- Witness for C3 at a concrete input: currentPrice 100, upper band 110,
lower band 90 succeeds with risk/reward 1 = (110−100)/(100−90). -/
theorem claim_C3_price_targets_witness :
    computePriceTargets 100 110 90 =
      .ok { current_price := 100, stop_loss := 90, target_1 := 110,
            target_2 := 231/2, risk_reward := 1 } ∧
    (PriceTargets.mk 100 90 110 (231/2) 1).risk_reward
      = (110 - 100) / (100 - 90) := by
  have hok : computePriceTargets 100 110 90 =
      .ok (PriceTargets.mk 100 90 110 (231/2) 1) := by
    simp only [computePriceTargets]
    norm_num
  exact ⟨hok, ((claim_C3_price_targets 100 110 90).2 _ hok).1⟩

/-- Claim C4: for every screening run over a universe of N symbols in which
exactly K symbols fail upstream fetch, the response has totalAnalyzed = N − K,
failedSymbols of length K, and topStocks drawn only from the succeeding
symbols. -/
theorem claim_C4_screening (fetchAnalyze : String → Option TopStock)
    (symbols : List String) (topN : Nat) :
    (screenUniverse fetchAnalyze symbols topN).totalAnalyzed
      = symbols.length
        - (symbols.filter (fun sym => (fetchAnalyze sym).isNone)).length ∧
    (screenUniverse fetchAnalyze symbols topN).failedSymbols.length
      = (symbols.filter (fun sym => (fetchAnalyze sym).isNone)).length ∧
    ∀ t ∈ (screenUniverse fetchAnalyze symbols topN).topStocks,
      ∃ sym ∈ symbols, fetchAnalyze sym = some t := by
  refine ⟨?_, rfl, ?_⟩
  · have h := length_filterMap_add_length_filter_isNone fetchAnalyze symbols
    simp only [screenUniverse]
    omega
  · intro t ht
    simp only [screenUniverse] at ht
    have ht' : t ∈ (symbols.filterMap fetchAnalyze).insertionSort byScoreDesc :=
      List.take_subset _ _ ht
    rw [List.mem_insertionSort] at ht'
    exact (List.mem_filterMap).mp ht'

/-- Concrete fetch used by the C4 witness: symbol "A" succeeds, others fail. -/
def fetchW : String → Option TopStock := fun sym =>
  if sym = "A" then
    some { symbol := "A", name := "A Corp", sector := "Tech"
           currentPrice := 100, marketCap := 1000, peRatio := 10
           recommendation := .buy, combinedScore := 20, technicalScore := 15
           sentimentScore := 30, confidence := 40, pricePosition52w := 50
           volumeRatio := 1, momentum20d := 2, attractivenessScore := 75
           description := "w" }
  else none

/-- The single stock returned by `fetchW`. -/
def stockW : TopStock :=
  { symbol := "A", name := "A Corp", sector := "Tech"
    currentPrice := 100, marketCap := 1000, peRatio := 10
    recommendation := .buy, combinedScore := 20, technicalScore := 15
    sentimentScore := 30, confidence := 40, pricePosition52w := 50
    volumeRatio := 1, momentum20d := 2, attractivenessScore := 75
    description := "w" }

/-- Witness for C4: over the universe ["A", "B"] where exactly "B" fails,
the response analyzes 1 = 2 − 1 symbol, records 1 failed symbol, and `stockW`
of its topStocks comes from a succeeding symbol of the universe. -/
theorem claim_C4_screening_witness :
    (screenUniverse fetchW ["A", "B"] 5).totalAnalyzed = 1 ∧
    (screenUniverse fetchW ["A", "B"] 5).failedSymbols.length = 1 ∧
    stockW ∈ (screenUniverse fetchW ["A", "B"] 5).topStocks ∧
    (∃ sym ∈ ["A", "B"], fetchW sym = some stockW) := by
  have hmem : stockW ∈ (screenUniverse fetchW ["A", "B"] 5).topStocks := by
    decide
  refine ⟨by decide, by decide, hmem, ?_⟩
  exact (claim_C4_screening fetchW ["A", "B"] 5).2.2 stockW hmem

/-- Claim C5: the two Bollinger-derived levels have strength 70, the upper band
classified Resistance and the lower band Support; every SMA-derived level has
strength 60, classified Support when the SMA is below the current price and
Resistance when above; each available SMA produces exactly its level. -/
theorem claim_C5_level_strengths (p u l : ℚ) (smas : List ℚ) :
    (supportResistanceLevels p u l smas).take 2
      = [{ price := u, type := .resistance, strength := 70 },
         { price := l, type := .support, strength := 70 }] ∧
    (∀ L ∈ (supportResistanceLevels p u l smas).drop 2,
        L.strength = 60 ∧
        (L.price < p → L.type = .support) ∧
        (p < L.price → L.type = .resistance)) ∧
    (∀ s ∈ smas,
        SupportResistanceLevel.mk s
            (if s < p then .support else .resistance) 60
          ∈ (supportResistanceLevels p u l smas).drop 2) := by
  refine ⟨rfl, ?_, ?_⟩
  · intro L hL
    simp only [supportResistanceLevels, List.drop_succ_cons, List.drop_zero,
      List.mem_map] at hL
    obtain ⟨s, _, rfl⟩ := hL
    refine ⟨rfl, fun hlt => ?_, fun hgt => ?_⟩
    · simp only [if_pos hlt]
    · simp only at hgt
      rw [if_neg (by linarith)]
  · intro s hs
    simp only [supportResistanceLevels, List.drop_succ_cons, List.drop_zero]
    exact List.mem_map_of_mem _ hs

/-- Witness for C5: with current price 100, bands 110/90 and the single SMA 95,
the SMA level sits below the price and is classified Support with strength
60, and the two band levels carry strength 70. -/
theorem claim_C5_level_strengths_witness :
    ((supportResistanceLevels 100 110 90 [95]).take 2
      = [{ price := 110, type := .resistance, strength := 70 },
         { price := 90, type := .support, strength := 70 }]) ∧
    (SupportResistanceLevel.mk 95 .support 60
        ∈ (supportResistanceLevels 100 110 90 [95]).drop 2 ∧
      (95 : ℚ) < 100) ∧
    ((SupportResistanceLevel.mk 95 .support 60).strength = 60 ∧
      (SupportResistanceLevel.mk 95 .support 60).type = .support) := by
  have h := claim_C5_level_strengths 100 110 90 [95]
  have hmem : SupportResistanceLevel.mk 95 .support 60
      ∈ (supportResistanceLevels 100 110 90 [95]).drop 2 := by decide
  have hlt : (95 : ℚ) < 100 := by norm_num
  exact ⟨h.1, ⟨hmem, hlt⟩,
    (h.2.1 _ hmem).1, (h.2.1 _ hmem).2.1 hlt⟩

/-- Claim C9: the score-bar clamp min(max(x, 0), 100) always lands in
[0, 100], is the identity exactly on [0, 100], is idempotent, and is the
function applied to attractivenessScore, technicalScore + 50 and
sentimentScore + 50 by the screener's score bars. -/
theorem claim_C9_score_bar_clamp (x : ℚ) (stock : TopStock) :
    (0 ≤ scoreBarClamp x ∧ scoreBarClamp x ≤ 100) ∧
    (scoreBarClamp x = x ↔ 0 ≤ x ∧ x ≤ 100) ∧
    scoreBarClamp (scoreBarClamp x) = scoreBarClamp x ∧
    attractivenessBarWidth stock = scoreBarClamp stock.attractivenessScore ∧
    technicalBarWidth stock = scoreBarClamp (stock.technicalScore + 50) ∧
    sentimentBarWidth stock = scoreBarClamp (stock.sentimentScore + 50) := by
  unfold scoreBarClamp attractivenessBarWidth technicalBarWidth
    sentimentBarWidth
  refine ⟨⟨?_, ?_⟩, ⟨?_, ?_⟩, ?_, rfl, rfl, rfl⟩
  · rcases le_total x 0 with h | h <;> rcases le_total x 100 with h' | h' <;>
      simp [min_def, max_def, h, h']
  · exact min_le_right _ _
  · intro hx
    constructor
    · rw [← hx]
      rcases le_total x 0 with h | h <;> rcases le_total x 100 with h' | h' <;>
        simp [min_def, max_def, h, h']
    · rw [← hx]
      exact min_le_right _ _
  · rintro ⟨h0, h100⟩
    rw [max_eq_left h0, min_eq_left h100]
  · rcases le_total x 0 with h | h <;> rcases le_total x 100 with h' | h' <;>
      simp [min_def, max_def, h, h']

/-! ## Chart data and time-range filtering (frontend `StockChart.tsx`) -/

/-- The OHLC arrays of `types.ts` `ChartData.ohlc` (`open` is a Lean keyword,
hence the trailing underscore). -/
structure OhlcArrays where
  open_ : List ℚ
  high : List ℚ
  low : List ℚ
  close : List ℚ
deriving DecidableEq, Repr

/-- The optional indicator arrays of `types.ts` `ChartData.indicators`.  An
absent field (`none`) is an indicator the backend did not produce; inside a
produced array, `none` entries are the null warm-up entries (spec §3,
IndicatorSeries: "entries before the indicator's warm-up window are
undefined/absent rather than zero"). -/
structure IndicatorArrays where
  sma20 : Option (List (Option ℚ))
  sma50 : Option (List (Option ℚ))
  sma150 : Option (List (Option ℚ))
  sma200 : Option (List (Option ℚ))
  bbUpper : Option (List (Option ℚ))
  bbLower : Option (List (Option ℚ))
  rsi : Option (List (Option ℚ))
  macd : Option (List (Option ℚ))
  macdSignal : Option (List (Option ℚ))
  macdHist : Option (List (Option ℚ))
  cci : Option (List (Option ℚ))
deriving DecidableEq, Repr

/-- The `ChartData` record of the frontend type declarations (`types.ts`). -/
structure ChartData where
  dates : List String
  ohlc : OhlcArrays
  volume : List ℚ
  indicators : IndicatorArrays
deriving DecidableEq, Repr

/-- The time-interval selector of `StockChart.tsx`
(`type TimeInterval = '1d' | 'week' | 'month' | 'year' | 'all'`). -/
inductive TimeInterval where
  | oneDay
  | week
  | month
  | year
  | all
deriving DecidableEq, Repr

/-- `StockChart.tsx` lines 187–246, `filterDataByInterval`.  The `'all'`
branch returns the data unchanged; otherwise the first index whose date lies
on or after the interval's cutoff is located with `findIndex` and every array
— dates, the four OHLC arrays, volume, and each present indicator array — is
`slice`d from that index; if no date qualifies (`findIndex` returns −1) the
data is returned unchanged.  The wall-clock comparison
`new Date(dateStr) >= cutoffDate` is abstracted as the boolean predicate
`afterCutoff` on the date string, since the cutoff is computed from the
current time. -/
def filterDataByInterval (timeInterval : TimeInterval)
    (afterCutoff : String → Bool) (chartData : ChartData) : ChartData :=
  match timeInterval with
  | .all =>
      { dates := chartData.dates
        ohlc := chartData.ohlc
        volume := chartData.volume
        indicators := chartData.indicators }
  | _ =>
      match chartData.dates.findIdx? afterCutoff with
      | none => chartData
      | some startIndex =>
          { dates := chartData.dates.drop startIndex
            ohlc := { open_ := chartData.ohlc.open_.drop startIndex
                      high := chartData.ohlc.high.drop startIndex
                      low := chartData.ohlc.low.drop startIndex
                      close := chartData.ohlc.close.drop startIndex }
            volume := chartData.volume.drop startIndex
            indicators :=
              { sma20 := chartData.indicators.sma20.map (List.drop startIndex)
                sma50 := chartData.indicators.sma50.map (List.drop startIndex)
                sma150 := chartData.indicators.sma150.map (List.drop startIndex)
                sma200 := chartData.indicators.sma200.map (List.drop startIndex)
                bbUpper := chartData.indicators.bbUpper.map (List.drop startIndex)
                bbLower := chartData.indicators.bbLower.map (List.drop startIndex)
                rsi := chartData.indicators.rsi.map (List.drop startIndex)
                macd := chartData.indicators.macd.map (List.drop startIndex)
                macdSignal := chartData.indicators.macdSignal.map (List.drop startIndex)
                macdHist := chartData.indicators.macdHist.map (List.drop startIndex)
                cci := chartData.indicators.cci.map (List.drop startIndex) } }

/-- The start index `filterDataByInterval` slices from: 0 for `'all'` and for
a failed `findIndex`, otherwise the found index. -/
def startIndexOf (timeInterval : TimeInterval)
    (afterCutoff : String → Bool) (chartData : ChartData) : Nat :=
  match timeInterval with
  | .all => 0
  | _ =>
      match chartData.dates.findIdx? afterCutoff with
      | none => 0
      | some startIndex => startIndex

/-- A present indicator array has the given length; an absent one imposes
nothing. -/
def optLenOk (o : Option (List (Option ℚ))) (n : Nat) : Prop :=
  match o with
  | none => True
  | some l => l.length = n

instance (o : Option (List (Option ℚ))) (n : Nat) : Decidable (optLenOk o n) :=
  match o with
  | none => isTrue trivial
  | some l => inferInstanceAs (Decidable (l.length = n))

/-- Index-for-index alignment of a `ChartData`: the OHLC arrays, the volume
array and every present indicator array have the same length as the dates
array. -/
def ChartData.aligned (cd : ChartData) : Prop :=
  cd.ohlc.open_.length = cd.dates.length ∧
  cd.ohlc.high.length = cd.dates.length ∧
  cd.ohlc.low.length = cd.dates.length ∧
  cd.ohlc.close.length = cd.dates.length ∧
  cd.volume.length = cd.dates.length ∧
  optLenOk cd.indicators.sma20 cd.dates.length ∧
  optLenOk cd.indicators.sma50 cd.dates.length ∧
  optLenOk cd.indicators.sma150 cd.dates.length ∧
  optLenOk cd.indicators.sma200 cd.dates.length ∧
  optLenOk cd.indicators.bbUpper cd.dates.length ∧
  optLenOk cd.indicators.bbLower cd.dates.length ∧
  optLenOk cd.indicators.rsi cd.dates.length ∧
  optLenOk cd.indicators.macd cd.dates.length ∧
  optLenOk cd.indicators.macdSignal cd.dates.length ∧
  optLenOk cd.indicators.macdHist cd.dates.length ∧
  optLenOk cd.indicators.cci cd.dates.length

instance (cd : ChartData) : Decidable cd.aligned :=
  inferInstanceAs (Decidable (_ ∧ _))

/-- Auxiliary: dropping a prefix of a present indicator array shortens it by
the dropped amount. -/
theorem optLenOk_map_drop {o : Option (List (Option ℚ))} {n : Nat}
    (h : optLenOk o n) (i : Nat) :
    optLenOk (o.map (List.drop i)) (n - i) := by
  cases o with
  | none => trivial
  | some l =>
      simp only [optLenOk, Option.map_some'] at h ⊢
      simp [List.length_drop, h]

/-- Auxiliary: dropping zero elements of an optional array is the identity. -/
theorem optMap_drop_zero (o : Option (List (Option ℚ))) :
    o.map (List.drop 0) = o := by
  cases o <;> rfl

/-- `res` is `cd` with every array sliced from index `s`: the dates, OHLC and
volume arrays are the index-`s` drops of the input arrays, and each present
indicator array is the index-`s` drop of the corresponding input array. -/
def slicedFrom (cd res : ChartData) (s : Nat) : Prop :=
  res.dates = cd.dates.drop s ∧
  res.ohlc.open_ = cd.ohlc.open_.drop s ∧
  res.ohlc.high = cd.ohlc.high.drop s ∧
  res.ohlc.low = cd.ohlc.low.drop s ∧
  res.ohlc.close = cd.ohlc.close.drop s ∧
  res.volume = cd.volume.drop s ∧
  res.indicators.sma20 = cd.indicators.sma20.map (List.drop s) ∧
  res.indicators.sma50 = cd.indicators.sma50.map (List.drop s) ∧
  res.indicators.sma150 = cd.indicators.sma150.map (List.drop s) ∧
  res.indicators.sma200 = cd.indicators.sma200.map (List.drop s) ∧
  res.indicators.bbUpper = cd.indicators.bbUpper.map (List.drop s) ∧
  res.indicators.bbLower = cd.indicators.bbLower.map (List.drop s) ∧
  res.indicators.rsi = cd.indicators.rsi.map (List.drop s) ∧
  res.indicators.macd = cd.indicators.macd.map (List.drop s) ∧
  res.indicators.macdSignal = cd.indicators.macdSignal.map (List.drop s) ∧
  res.indicators.macdHist = cd.indicators.macdHist.map (List.drop s) ∧
  res.indicators.cci = cd.indicators.cci.map (List.drop s)

/-- Auxiliary: every `ChartData` is the slice of itself from index 0. -/
theorem slicedFrom_self (cd : ChartData) : slicedFrom cd cd 0 :=
  ⟨rfl, rfl, rfl, rfl, rfl, rfl,
   (optMap_drop_zero _).symm, (optMap_drop_zero _).symm,
   (optMap_drop_zero _).symm, (optMap_drop_zero _).symm,
   (optMap_drop_zero _).symm, (optMap_drop_zero _).symm,
   (optMap_drop_zero _).symm, (optMap_drop_zero _).symm,
   (optMap_drop_zero _).symm, (optMap_drop_zero _).symm,
   (optMap_drop_zero _).symm⟩

/-- Claim C6: for every ChartData whose OHLC, volume and present indicator
arrays all have the same length as its dates array, `filterDataByInterval`
returns data in which every array is the corresponding input array sliced
from the same start index — so every array again has the same length as the
returned dates array, and the element at position i of each returned array is
the element at position startIndex + i of the corresponding input array
(stated explicitly for the dates array; the slice equations give it for every
other array). -/
theorem claim_C6_filter_preserves_alignment (ti : TimeInterval)
    (afterCutoff : String → Bool) (cd : ChartData) (h : cd.aligned) :
    slicedFrom cd (filterDataByInterval ti afterCutoff cd)
        (startIndexOf ti afterCutoff cd) ∧
    (filterDataByInterval ti afterCutoff cd).aligned ∧
    ∀ i : Nat, (filterDataByInterval ti afterCutoff cd).dates[i]?
        = cd.dates[startIndexOf ti afterCutoff cd + i]? := by
  obtain ⟨h1, h2, h3, h4, h5, h6, h7, h8, h9, h10, h11, h12, h13, h14, h15,
    h16⟩ := h
  cases ti
  case all =>
    exact ⟨slicedFrom_self cd,
      ⟨h1, h2, h3, h4, h5, h6, h7, h8, h9, h10, h11, h12, h13, h14, h15, h16⟩,
      fun i => by simp [filterDataByInterval, startIndexOf]⟩
  all_goals
    (cases hidx : cd.dates.findIdx? afterCutoff with
      | none =>
          simp only [filterDataByInterval, startIndexOf, hidx]
          exact ⟨slicedFrom_self cd,
            ⟨h1, h2, h3, h4, h5, h6, h7, h8, h9, h10, h11, h12, h13, h14,
             h15, h16⟩,
            fun i => by rw [Nat.zero_add]⟩
      | some s =>
          simp only [filterDataByInterval, startIndexOf, hidx]
          refine ⟨⟨rfl, rfl, rfl, rfl, rfl, rfl, rfl, rfl, rfl, rfl, rfl,
              rfl, rfl, rfl, rfl, rfl, rfl⟩,
            ⟨?_, ?_, ?_, ?_, ?_, ?_, ?_, ?_, ?_, ?_, ?_, ?_, ?_, ?_, ?_, ?_⟩,
            fun i => List.getElem?_drop cd.dates s i⟩
          · simp only [List.length_drop]; omega
          · simp only [List.length_drop]; omega
          · simp only [List.length_drop]; omega
          · simp only [List.length_drop]; omega
          · simp only [List.length_drop]; omega
          · simp only [List.length_drop]; exact optLenOk_map_drop h6 s
          · simp only [List.length_drop]; exact optLenOk_map_drop h7 s
          · simp only [List.length_drop]; exact optLenOk_map_drop h8 s
          · simp only [List.length_drop]; exact optLenOk_map_drop h9 s
          · simp only [List.length_drop]; exact optLenOk_map_drop h10 s
          · simp only [List.length_drop]; exact optLenOk_map_drop h11 s
          · simp only [List.length_drop]; exact optLenOk_map_drop h12 s
          · simp only [List.length_drop]; exact optLenOk_map_drop h13 s
          · simp only [List.length_drop]; exact optLenOk_map_drop h14 s
          · simp only [List.length_drop]; exact optLenOk_map_drop h15 s
          · simp only [List.length_drop]; exact optLenOk_map_drop h16 s)

/-- Concrete chart data for the C6 witness: two aligned bars, one present
indicator array with a null warm-up entry. -/
def cdW : ChartData :=
  { dates := ["2024-01-01", "2024-01-02"]
    ohlc := { open_ := [1, 2], high := [3, 4], low := [0, 1], close := [2, 3] }
    volume := [10, 20]
    indicators :=
      { sma20 := some [none, some 2], sma50 := none, sma150 := none
        sma200 := none, bbUpper := none, bbLower := none, rsi := none
        macd := none, macdSignal := none, macdHist := none, cci := none } }

/-- Cutoff predicate for the C6 witness: only the second date qualifies. -/
def cutW : String → Bool := fun d => d == "2024-01-02"

/-- Witness for C6: the concrete aligned chart data `cdW`, filtered to the
month interval with a cutoff keeping only the last bar, is the slice of the
input from the found start index, stays aligned, and its dates are the
shifted input dates. -/
theorem claim_C6_filter_preserves_alignment_witness :
    cdW.aligned ∧
    (slicedFrom cdW (filterDataByInterval .month cutW cdW)
        (startIndexOf .month cutW cdW) ∧
      (filterDataByInterval .month cutW cdW).aligned ∧
      ∀ i : Nat, (filterDataByInterval .month cutW cdW).dates[i]?
          = cdW.dates[startIndexOf .month cutW cdW + i]?) :=
  ⟨by decide, claim_C6_filter_preserves_alignment .month cutW cdW (by decide)⟩

/-! ## SMA overlays of the price chart (`StockChart.tsx` lines 274–317) -/

/-- A point of an SMA overlay dataset: `x` is the date's timestamp, `y` the
price value, or `none` where the source produces `null`/`undefined`. -/
structure ChartPoint where
  x : Int
  y : Option ℚ
deriving DecidableEq, Repr

/-- JavaScript `value || null` applied to a number-or-null indicator entry: a
falsy entry — null, undefined, or the number 0 — becomes null. -/
def orNull (v : Option ℚ) : Option ℚ :=
  match v with
  | some x => if x = 0 then none else some x
  | none => none

/-- JavaScript truthiness of a number-or-null value: true exactly for a
present, non-zero number. -/
def truthy (v : Option ℚ) : Bool :=
  match v with
  | some x => x != 0
  | none => false

/-- `StockChart.tsx` lines 274–306 (repeated for SMA 20, 50 and 150, and
again in the candlestick branch at lines 339–371): the overlay dataset maps
every date to a point with `y: sma[index] || null` and then keeps only the
points with `y !== null`.  `getTime` abstracts `new Date(date).getTime()`. -/
def smaOverlayData (getTime : String → Int) (dates : List String)
    (sma : List (Option ℚ)) : List ChartPoint :=
  ((dates.enum.map (fun p =>
      { x := getTime p.2, y := orNull ((sma[p.1]?).join) : ChartPoint })).filter
    (fun pt => pt.y.isSome))

/-- `StockChart.tsx` lines 307–317: the SMA 200 overlay dataset of the line
chart maps every date to a point with `y: sma200[index]` — with no `|| null`
coercion and no filter, unlike the SMA 20/50/150 datasets. -/
def sma200OverlayData (getTime : String → Int) (dates : List String)
    (sma : List (Option ℚ)) : List ChartPoint :=
  dates.enum.map (fun p =>
    { x := getTime p.2, y := (sma[p.1]?).join : ChartPoint })

/-- Counterexample to claim C7 as stated: in a two-bar chart whose SMA 200
array has an undefined warm-up entry at index 0, the SMA 200 overlay dataset
retains a point for that undefined entry (and has one point per date, not one
per defined entry), so warm-up entries are not excluded from the SMA 200
dataset. -/
theorem claim_C7_counterexample :
    ChartPoint.mk 0 none ∈
      sma200OverlayData (fun _ => 0) ["2024-01-01", "2024-01-02"]
        [none, some 5] ∧
    (sma200OverlayData (fun _ => 0) ["2024-01-01", "2024-01-02"]
        [none, some 5]).length = 2 := by
  decide

/-- Claim C7 as amended: the SMA 20/50/150 overlay datasets contain exactly
those points whose SMA entry at that date's index is truthy — defined and
non-zero, a defined zero entry being coerced to null and filtered — with y
equal to that entry; the SMA 200 overlay dataset instead contains one point
for every date, with y the raw entry, so its undefined warm-up entries are
kept rather than excluded. -/
theorem claim_C7_sma_overlays (getTime : String → Int) (dates : List String)
    (sma : List (Option ℚ)) :
    smaOverlayData getTime dates sma
      = (sma200OverlayData getTime dates sma).filter (fun pt => truthy pt.y) ∧
    (sma200OverlayData getTime dates sma).length = dates.length ∧
    ∀ i : Nat, (sma200OverlayData getTime dates sma)[i]?
      = (dates[i]?).map (fun d =>
          { x := getTime d, y := (sma[i]?).join : ChartPoint }) := by
  refine ⟨?_, ?_, ?_⟩
  · unfold smaOverlayData sma200OverlayData
    rw [List.filter_map, List.filter_map]
    have hpred : ((fun pt : ChartPoint => pt.y.isSome) ∘
        (fun p : Nat × String =>
          ({ x := getTime p.2, y := orNull ((sma[p.1]?).join) } : ChartPoint)))
        = ((fun pt : ChartPoint => truthy pt.y) ∘
        (fun p : Nat × String =>
          ({ x := getTime p.2, y := (sma[p.1]?).join } : ChartPoint))) := by
      funext p
      simp only [Function.comp]
      generalize (sma[p.1]?).join = e
      cases e with
      | none => rfl
      | some v =>
          by_cases hv : v = 0 <;> simp [orNull, truthy, hv]
    rw [hpred]
    apply List.map_congr_left
    intro p hp
    rw [List.mem_filter] at hp
    have hp2 := hp.2
    simp only [Function.comp] at hp2
    revert hp2
    generalize (sma[p.1]?).join = e
    intro hp2
    cases e with
    | none => simp [truthy] at hp2
    | some v =>
        have hv : v ≠ 0 := by simpa [truthy] using hp2
        simp [orNull, hv]
  · simp [sma200OverlayData, List.length_map, List.enum_length]
  · intro i
    simp only [sma200OverlayData, List.getElem?_map, List.getElem?_enum]
    cases dates[i]? <;> rfl

/-! ## Demark signal points (`DemarkIndicator.tsx`) -/

/-- Signal direction of the Demark exhaustion counter (spec §3). -/
inductive DemarkDirection where
  | buy
  | sell
deriving DecidableEq, Repr

/-- The `DemarkSignal` entry of the data model.  Modelled from the spec for
the field list (spec §3: date, price, value, direction), as the `types.ts`
interface declaration is not in this snapshot; the processing code below uses
`date`, `price` and `value`. -/
structure DemarkSignal where
  date : String
  price : ℚ
  value : ℚ
  direction : DemarkDirection
deriving DecidableEq, Repr

/-- A chart point of a Demark signal dataset
(`DemarkIndicator.tsx`, interface `DemarkSignalPoints`). -/
structure DemarkPoint where
  x : Int
  y : ℚ
  value : ℚ
deriving DecidableEq, Repr

/-- The result record of `processDemarkSignals`. -/
structure DemarkSignalPoints where
  buyPoints : List DemarkPoint
  sellPoints : List DemarkPoint
deriving DecidableEq, Repr

/-- `DemarkIndicator.tsx` lines 12–40, `processDemarkSignals`: maps the
optional buy and sell signal lists to chart points — x the date's timestamp
(`getTime` abstracts `new Date(dateString).getTime()`), y the signal's price,
value the signal's value — with `|| []` turning an absent list into no
points.  The `dates` and `prices` parameters are accepted and unused, as in
the source. -/
def processDemarkSignals (getTime : String → Int)
    (buySignals sellSignals : Option (List DemarkSignal))
    (dates : Option (List String)) (prices : Option (List ℚ)) :
    DemarkSignalPoints :=
  let getXPosition (dateString : String) : Int := getTime dateString
  let buyPoints := (buySignals.map (fun signals => signals.map (fun signal =>
      { x := getXPosition signal.date, y := signal.price
        value := signal.value : DemarkPoint }))).getD []
  let sellPoints := (sellSignals.map (fun signals => signals.map (fun signal =>
      { x := getXPosition signal.date, y := signal.price
        value := signal.value : DemarkPoint }))).getD []
  { buyPoints := buyPoints, sellPoints := sellPoints }

/-- Claim C8: for every pair of optional buy and sell signal lists,
`processDemarkSignals` returns buyPoints and sellPoints of the same lengths
as the input lists, where the i-th point has y equal to the i-th signal's
price and value equal to the i-th signal's value; an absent signal list
yields an empty point list. -/
theorem claim_C8_demark_points (getTime : String → Int)
    (buySignals sellSignals : Option (List DemarkSignal))
    (dates : Option (List String)) (prices : Option (List ℚ)) :
    (∀ bs, buySignals = some bs →
      (processDemarkSignals getTime buySignals sellSignals dates
          prices).buyPoints.length = bs.length ∧
      ∀ i : Nat, (processDemarkSignals getTime buySignals sellSignals dates
          prices).buyPoints[i]?
        = (bs[i]?).map (fun signal =>
            { x := getTime signal.date, y := signal.price
              value := signal.value })) ∧
    (buySignals = none →
      (processDemarkSignals getTime buySignals sellSignals dates
          prices).buyPoints = []) ∧
    (∀ ss, sellSignals = some ss →
      (processDemarkSignals getTime buySignals sellSignals dates
          prices).sellPoints.length = ss.length ∧
      ∀ i : Nat, (processDemarkSignals getTime buySignals sellSignals dates
          prices).sellPoints[i]?
        = (ss[i]?).map (fun signal =>
            { x := getTime signal.date, y := signal.price
              value := signal.value })) ∧
    (sellSignals = none →
      (processDemarkSignals getTime buySignals sellSignals dates
          prices).sellPoints = []) := by
  refine ⟨?_, ?_, ?_, ?_⟩
  · rintro bs rfl
    exact ⟨by simp [processDemarkSignals, List.length_map],
      fun i => by simp [processDemarkSignals, List.getElem?_map]⟩
  · rintro rfl
    rfl
  · rintro ss rfl
    exact ⟨by simp [processDemarkSignals, List.length_map],
      fun i => by simp [processDemarkSignals, List.getElem?_map]⟩
  · rintro rfl
    rfl

/-- The concrete signal of the C8 witness. -/
def sigW : DemarkSignal :=
  { date := "2024-01-03", price := 5, value := 9, direction := .buy }

/-- Witness for C8: with one buy signal and an absent sell list, the result
has one buy point carrying the signal's price and value, and no sell
points. -/
theorem claim_C8_demark_points_witness :
    ((some [sigW] : Option (List DemarkSignal)) = some [sigW]) ∧
    ((none : Option (List DemarkSignal)) = none) ∧
    (processDemarkSignals (fun _ => 0) (some [sigW]) none none
        none).buyPoints.length = [sigW].length ∧
    (∀ i : Nat, (processDemarkSignals (fun _ => 0) (some [sigW]) none none
        none).buyPoints[i]?
      = ([sigW][i]?).map (fun signal =>
          { x := (fun _ => (0 : Int)) signal.date, y := signal.price
            value := signal.value })) ∧
    (processDemarkSignals (fun _ => 0) (some [sigW]) none none
        none).sellPoints = [] := by
  have h := claim_C8_demark_points (fun _ => 0) (some [sigW]) none none none
  exact ⟨rfl, rfl, (h.1 [sigW] rfl).1, (h.1 [sigW] rfl).2, h.2.2.2 rfl⟩

/-- Claim C10: the result of `processDemarkSignals` depends only on its
buySignals and sellSignals arguments — two calls with identical signal lists
but arbitrary differing `dates` and `prices` arguments return identical
results, the two parameters being unused. -/
theorem claim_C10_demark_independent_of_dates_prices (getTime : String → Int)
    (buySignals sellSignals : Option (List DemarkSignal))
    (dates1 dates2 : Option (List String)) (prices1 prices2 : Option (List ℚ)) :
    processDemarkSignals getTime buySignals sellSignals dates1 prices1
      = processDemarkSignals getTime buySignals sellSignals dates2 prices2 :=
  rfl
